import Mathlib

/-
  Shallow embedding of reptyr.c (the terminal relay and attach orchestrator).

  External calls (libc, the platform attach backend) are modelled as oracle
  inputs: each call site consumes one outcome from an input trace, and the
  embedded functions emit an event list recording the observable actions the
  code performs.  Pure control flow is translated directly from the source.
-/

namespace Reptyr

/-- Linux errno value for an interrupted system call. -/
def EINTR : Nat := 4

/-- Linux errno value for a permission failure. -/
def EPERM : Nat := 1

/-- Saved terminal attribute state (struct termios).  The attribute word is
abstract; the raw flag records whether cfmakeraw has been applied. -/
structure Termios where
  attrs : Nat
  raw : Bool
deriving DecidableEq

/-- Model of libc cfmakeraw: switches the attribute set to raw mode. -/
def cfmakeraw (t : Termios) : Termios :=
  { t with raw := true }

/-- struct winsize: rows, columns, x pixels, y pixels (field order as in the
kernel header, matching the braced initializer in resize_pty). -/
structure Winsize where
  ws_row : Nat
  ws_col : Nat
  ws_xpixel : Nat
  ws_ypixel : Nat
deriving DecidableEq

/-- Observable actions performed by the embedded code. -/
inductive Ev where
  | setWinsize (fd : Nat) (sz : Winsize)
  | logErr (msg : String)
  | tcsetattrCall (fd : Nat) (t : Termios)
  | writeallCall (fd : Nat) (bytes : List Nat) (res : Option (Int × Int))
  | dieEv (msg : String)
  | allocPty
  | usageShown
  | versionShown
  | printSlavePath (path : String)
  | spawnChild (cmd : List String) (envPty : String) (redirected : Bool)
  | attachCall (pid : Int) (path : String) (force_stdio : Bool)
  | stealCall (pid : Int)
  | ptraceScopeCheck
deriving DecidableEq

/-- True for a window-size ioctl event. -/
def isSetWinsize : Ev → Bool
  | Ev.setWinsize _ _ => true
  | _ => false

/-- True for a fatal (die) event. -/
def isDie : Ev → Bool
  | Ev.dieEv _ => true
  | _ => false

/-- The fake size used by resize_pty when the controlling terminal reports no
size: struct winsize defaultsize = (30, 80, 640, 480) (reptyr.c line 93). -/
def defaultsize : Winsize :=
  ⟨30, 80, 640, 480⟩

/-- resize_pty (reptyr.c lines 89-100).  getRes is the outcome of
ioctl(0, TIOCGWINSZ) (none on failure); setOk is the outcome of the fallback
ioctl(pty, TIOCSWINSZ).  On a failed size query the fixed defaultsize is
applied and a set failure is only logged; on success the queried size is
applied with the result ignored.  The function never dies. -/
def resize_pty (pty : Nat) (getRes : Option Winsize) (setOk : Bool) : List Ev :=
  match getRes with
  | none =>
      if setOk then [Ev.setWinsize pty defaultsize]
      else [Ev.setWinsize pty defaultsize, Ev.logErr "Cannot set terminal size"]
  | some sz => [Ev.setWinsize pty sz]

/-- Outcome of one write(2) call: ok n means the call returned n (0 <= n),
err e means the call returned -1 with errno e. -/
inductive WriteRes where
  | ok (n : Nat)
  | err (errno : Nat)
deriving DecidableEq

/-- writeall (reptyr.c lines 102-115) over a trace of write outcomes.
Returns some (rv, written) where rv is the return value of writeall and
written the total number of bytes accepted by write calls; returns none when
the trace is exhausted while bytes remain (the loop would still be running). -/
def writeall (count : Int) : List WriteRes → Option (Int × Int)
  | [] => if count ≤ 0 then some (0, 0) else none
  | w :: rest =>
    if count ≤ 0 then some (0, 0)
    else
      match w with
      | WriteRes.err e =>
          if e = EINTR then writeall count rest else some (-1, 0)
      | WriteRes.ok n =>
          match writeall (count - (n : Int)) rest with
          | none => none
          | some (rv, written) => some (rv, written + (n : Int))

/-- A write trace is valid for a byte count when every successful write
reports at most the bytes that remained to be written (POSIX guarantee). -/
def validFor (count : Int) : List WriteRes → Bool
  | [] => true
  | w :: rest =>
    if count ≤ 0 then true
    else
      match w with
      | WriteRes.err _ => validFor count rest
      | WriteRes.ok n => decide ((n : Int) ≤ count) && validFor (count - (n : Int)) rest

/-- Outcome of one read(2) call: err means a negative return, data bs means
the call returned bs.length bytes (data [] is an EOF, return value 0). -/
inductive ReadRes where
  | err
  | data (bytes : List Nat)
deriving DecidableEq

/-- Outcome of one pselect(2) call. -/
inductive SelRes where
  | err (errno : Nat)
  | ready (localReady ptyReady : Bool)
deriving DecidableEq

/-- Oracle inputs consumed by one iteration of the do_proxy loop. -/
structure IterIn where
  winsz : Option Winsize
  setOk : Bool
  sel : SelRes
  winchDelivered : Bool
  localRead : ReadRes
  localWrite : List WriteRes
  ptyRead : ReadRes
  ptyWrite : List WriteRes
deriving DecidableEq

/-- Reason the do_proxy loop returned. -/
inductive ExitReason where
  | selectError (errno : Nat)
  | localEnd
  | ptyEnd
deriving DecidableEq

/-- True when a read outcome is strictly negative (count < 0). -/
def readNeg : ReadRes → Bool
  | ReadRes.err => true
  | ReadRes.data _ => false

/-- True when a read outcome is non-positive (count <= 0). -/
def readLe0 : ReadRes → Bool
  | ReadRes.err => true
  | ReadRes.data [] => true
  | ReadRes.data (_ :: _) => false

/-- The event recording a writeall call together with its modelled result. -/
def wevent (fd : Nat) (bytes : List Nat) (tr : List WriteRes) : Ev :=
  Ev.writeallCall fd bytes (writeall (bytes.length : Int) tr)

/-- One iteration of the while loop of do_proxy (reptyr.c lines 145-172).
Takes the winch_happened flag at the top of the iteration and the oracle
inputs; returns the events of the iteration, the flag after the iteration
(SIGWINCH is blocked outside pselect, so the handler can run only during the
pselect call: the flag afterwards is exactly winchDelivered), and the reason
the loop returned, if it did.  The return value of writeall is recorded in
the event but never consulted, exactly as in the source. -/
def proxyStep (pty : Nat) (winch : Bool) (i : IterIn) :
    List Ev × Bool × Option ExitReason :=
  let evTop := if winch then resize_pty pty i.winsz i.setOk else []
  match i.sel with
  | SelRes.err e =>
      if e = EINTR then (evTop, i.winchDelivered, none)
      else (evTop ++ [Ev.logErr "select"], i.winchDelivered,
            some (ExitReason.selectError e))
  | SelRes.ready l p =>
      if l then
        match i.localRead with
        | ReadRes.err => (evTop, i.winchDelivered, some ExitReason.localEnd)
        | ReadRes.data bs =>
            let ev1 := evTop ++ [wevent pty bs i.localWrite]
            if p then
              match i.ptyRead with
              | ReadRes.err => (ev1, i.winchDelivered, some ExitReason.ptyEnd)
              | ReadRes.data [] => (ev1, i.winchDelivered, some ExitReason.ptyEnd)
              | ReadRes.data cs =>
                  (ev1 ++ [wevent 1 cs i.ptyWrite], i.winchDelivered, none)
            else (ev1, i.winchDelivered, none)
      else
        if p then
          match i.ptyRead with
          | ReadRes.err => (evTop, i.winchDelivered, some ExitReason.ptyEnd)
          | ReadRes.data [] => (evTop, i.winchDelivered, some ExitReason.ptyEnd)
          | ReadRes.data cs =>
              (evTop ++ [wevent 1 cs i.ptyWrite], i.winchDelivered, none)
        else (evTop, i.winchDelivered, none)

/-- The condition under which one iteration returns from do_proxy, read off
the source: a pselect failure other than EINTR, a negative read on the local
side (fd 0), or, after the local side was handled without returning, a
non-positive read on the pty side. -/
def exitCause (i : IterIn) : Option ExitReason :=
  match i.sel with
  | SelRes.err e => if e = EINTR then none else some (ExitReason.selectError e)
  | SelRes.ready l p =>
      if l && readNeg i.localRead then some ExitReason.localEnd
      else if p && readLe0 i.ptyRead then some ExitReason.ptyEnd
      else none

/-- Runs the do_proxy loop over a finite oracle trace, threading the
winch_happened flag.  Result none means the loop was still running when the
trace ran out. -/
def runLoop (pty : Nat) (winch : Bool) :
    List IterIn → List Ev × Bool × Option ExitReason
  | [] => ([], winch, none)
  | i :: rest =>
    match proxyStep pty winch i with
    | (ev, w2, none) =>
        match runLoop pty w2 rest with
        | (ev2, w3, r) => (ev ++ ev2, w3, r)
    | (ev, w2, some r) => (ev, w2, some r)

/-- Oracle inputs for the setup part of do_proxy (before the loop). -/
structure ProxySetupIn where
  sigprocmaskOk : Bool
  initWinsz : Option Winsize
  initSetOk : Bool
deriving DecidableEq

/-- How do_proxy returned: an early return because sigprocmask failed, or a
return from inside the loop. -/
inductive ProxyResult where
  | setupFail
  | loopExit (r : ExitReason)
deriving DecidableEq

/-- do_proxy (reptyr.c lines 123-173): block SIGWINCH (returning early if
sigprocmask fails), install the handler, propagate the size once, then run
the relay loop with the flag initially clear.  Result none means the loop
outlived the oracle trace. -/
def do_proxy (pty : Nat) (su : ProxySetupIn) (iters : List IterIn) :
    List Ev × Option ProxyResult :=
  if su.sigprocmaskOk = false then
    ([Ev.logErr "sigprocmask"], some ProxyResult.setupFail)
  else
    match runLoop pty false iters with
    | (ev, _, r) =>
        (resize_pty pty su.initWinsz su.initSetOk ++ ev,
         r.map ProxyResult.loopExit)

/-- do_winch (reptyr.c lines 119-121): the SIGWINCH handler.  Its whole body
is the assignment winch_happened = 1; it emits no events (no I/O, no
blocking work).  The argument is the flag value before the signal. -/
def do_winch (winch_happened : Bool) : Bool × List Ev :=
  (true, [])

/-- setup_raw (reptyr.c lines 77-87).  save is the value the termios variable
held before the call; tcget is the outcome of tcgetattr (none on failure);
tcsetOk the outcome of tcsetattr.  Returns the value of the save variable
after the call, the events, and whether the function died.  When tcgetattr
fails the save variable is never written and tcsetattr is not attempted. -/
def setup_raw (save : Termios) (tcget : Option Termios) (tcsetOk : Bool) :
    Termios × List Ev × Bool :=
  match tcget with
  | none => (save, [Ev.logErr "Unable to read terminal attributes"], false)
  | some cur =>
      if tcsetOk then
        (cur, [Ev.tcsetattrCall 0 (cfmakeraw cur)], false)
      else
        (cur, [Ev.tcsetattrCall 0 (cfmakeraw cur),
               Ev.dieEv "Unable to set terminal attributes"], true)

/-- Outcome of one tcsetattr call in the restore loop. -/
inductive RestoreResult where
  | ok
  | err (errno : Nat)
deriving DecidableEq

/-- The teardown loop of main (reptyr.c lines 301-305): do tcsetattr with the
saved termios; retry while it fails with EINTR; die on any other failure;
fall out of the loop on success (main then returns 0).  Returns the events
and the process exit code, or none when the trace is exhausted mid-retry. -/
def restore_termios (saved : Termios) :
    List RestoreResult → Option (List Ev × Nat)
  | [] => none
  | RestoreResult.ok :: _ => some ([Ev.tcsetattrCall 0 saved], 0)
  | RestoreResult.err e :: rest =>
      if e = EINTR then
        match restore_termios saved rest with
        | none => none
        | some (ev, c) => some (Ev.tcsetattrCall 0 saved :: ev, c)
      else
        some ([Ev.tcsetattrCall 0 saved,
               Ev.dieEv "Unable to tcsetattr"], 1)

/-- A restore trace that reaches a successful tcsetattr after only
EINTR failures. -/
def restoreEventuallyOk : List RestoreResult → Bool
  | [] => false
  | RestoreResult.ok :: _ => true
  | RestoreResult.err e :: rest => decide (e = EINTR) && restoreEventuallyOk rest

/-- Oracle inputs for the relay phase of main (lines 299-307). -/
structure RelayEnv where
  tcget : Option Termios
  tcsetOk : Bool
  su : ProxySetupIn
  iters : List IterIn
  rs : List RestoreResult
deriving DecidableEq

/-- The tail of main (reptyr.c lines 299-307): setup_raw on the saved_termios
variable (whose prior, uninitialized value is save0), do_proxy, then the
unconditional restore loop, then return 0.  Result none when an oracle trace
ran out with the code still running. -/
def relayPhase (pty : Nat) (save0 : Termios) (re : RelayEnv) :
    Option (List Ev × Nat) :=
  match setup_raw save0 re.tcget re.tcsetOk with
  | (snap, ev1, died) =>
    if died then some (ev1, 1)
    else
      match do_proxy pty re.su re.iters with
      | (ev2, none) => none
      | (ev2, some _) =>
        match restore_termios snap re.rs with
        | none => none
        | some (ev3, c) => some (ev1 ++ ev2 ++ ev3, c)

/-- LONG_MAX on the 64-bit platform the source targets. -/
def LONG_MAX : Int := 9223372036854775807

/-- LONG_MIN on the 64-bit platform the source targets. -/
def LONG_MIN : Int := -9223372036854775808

/-- C isspace for the default locale (the characters strtol skips). -/
def isSpaceC (c : Char) : Bool :=
  c = ' ' || c = '\t' || c = '\n' || c = '\x0b' || c = '\x0c' || c = '\r'

/-- Numeric value of a list of decimal digit characters. -/
def natOfDigits (ds : List Char) : Nat :=
  ds.foldl (fun acc c => acc * 10 + (c.toNat - '0'.toNat)) 0

/-- Result of strtol: the (clamped) value, whether ERANGE was set, and the
suffix the end pointer points at. -/
structure StrtolOut where
  value : Int
  erange : Bool
  rest : List Char
deriving DecidableEq

/-- Model of strtol(nptr, endptr, 10): skip whitespace, take an optional
sign, then digits; with no digits the value is 0 and the end pointer is the
original string; out-of-range values are clamped with ERANGE set. -/
def strtol (s : List Char) : StrtolOut :=
  let s1 := s.dropWhile isSpaceC
  let signed : Int × List Char :=
    match s1 with
    | '-' :: r => (-1, r)
    | '+' :: r => (1, r)
    | _ => (1, s1)
  let ds := signed.2.takeWhile Char.isDigit
  let rest := signed.2.dropWhile Char.isDigit
  if ds.isEmpty then
    { value := 0, erange := false, rest := s }
  else
    let v : Int := signed.1 * (natOfDigits ds : Int)
    if v > LONG_MAX then { value := LONG_MAX, erange := true, rest := rest }
    else if v < LONG_MIN then { value := LONG_MIN, erange := true, rest := rest }
    else { value := v, erange := false, rest := rest }

/-- Conversion of a long to pid_t (32-bit signed), modelled as the usual
modular wrap gcc performs. -/
def wrap32 (t : Int) : Int :=
  (t + 2147483648) % 4294967296 - 2147483648

/-- Result of the pid validation block of main (reptyr.c lines 249-260). -/
inductive PidCheck where
  | ok (pid : Int)
  | badRange
  | badTrailing
  | badValue
deriving DecidableEq

/-- The pid validation of main (lines 249-260): strtol, then die on ERANGE,
then die on trailing characters, then die when the pid_t cast changed the
value or the value is below 1. -/
def parsePid (s : String) : PidCheck :=
  let r := strtol s.toList
  if r.erange then PidCheck.badRange
  else if r.rest.isEmpty = false then PidCheck.badTrailing
  else
    let child := wrap32 r.value
    if child < r.value || r.value < 1 then PidCheck.badValue
    else PidCheck.ok r.value

/-- True when the pid string passes the validation of main. -/
def pidAccepted (s : String) : Bool :=
  match parsePid s with
  | PidCheck.ok _ => true
  | _ => false

/-- True for a command-line token of the form a dash followed by at least
one character, which getopt consumes as an option. -/
def isDashOpt (s : String) : Bool :=
  match s.toList with
  | d :: _ :: _ => d = '-'
  | _ => false

/-- The option flags of main (reptyr.c lines 196-199). -/
structure MOpts where
  do_attach : Bool
  force_stdio : Bool
  do_steal : Bool
  unattached_script_redirection : Bool
  verbose : Bool
deriving DecidableEq

/-- Initial values of the option flags in main. -/
def initOpts : MOpts :=
  ⟨true, false, false, false, false⟩

/-- Result of the getopt loop: either the loop finished with the flags and
the index of the first operand, or main returned early (-h, -v, or an
unknown option). -/
inductive OptOutcome where
  | proceed (o : MOpts) (optind : Nat)
  | earlyExit (ev : List Ev) (code : Nat)
deriving DecidableEq

/-- The getopt loop of main (reptyr.c lines 201-232), modelled for argument
vectors whose option tokens are single-letter (a dash plus one character),
as in every invocation the claims concern; getopt is libc, so token
combination and GNU permutation are outside the model and any other token
starting with a dash is treated as an unknown option.  The loop breaks
right after -l or -L (the rest is a command line). -/
def getoptLoop : List String → Nat → MOpts → OptOutcome
  | [], optind, o => OptOutcome.proceed o optind
  | a :: rest, optind, o =>
    match a.toList with
    | d :: c :: [] =>
        if d = '-' then
          if c = '-' then OptOutcome.proceed o (optind + 1)
          else if c = 'h' then OptOutcome.earlyExit [Ev.usageShown] 0
          else if c = 'v' then OptOutcome.earlyExit [Ev.versionShown] 0
          else if c = 'l' then
            OptOutcome.proceed { o with do_attach := false } (optind + 1)
          else if c = 'L' then
            OptOutcome.proceed
              { o with do_attach := false,
                       unattached_script_redirection := true }
              (optind + 1)
          else if c = 's' then
            getoptLoop rest (optind + 1) { o with force_stdio := true }
          else if c = 'T' then
            getoptLoop rest (optind + 1) { o with do_steal := true }
          else if c = 'V' then
            getoptLoop rest (optind + 1) { o with verbose := true }
          else OptOutcome.earlyExit [Ev.usageShown] 1
        else OptOutcome.proceed o optind
    | d :: _ :: _ =>
        if d = '-' then OptOutcome.earlyExit [Ev.usageShown] 1
        else OptOutcome.proceed o optind
    | _ => OptOutcome.proceed o optind

/-- Oracle outcomes for the external calls of main: pty allocation
(get_pt, unlockpt, grantpt), the slave path (ptsname), and the attach
backend results (attach_child, steal_pty).  The backend itself is out of
scope per the spec and enters only through these outcomes. -/
structure MainEnv where
  getPtOk : Bool
  unlockOk : Bool
  grantOk : Bool
  pty : Nat
  ptyUninit : Nat
  ptsName : String
  attachErr : Nat
  stealErr : Nat
  stolenPty : Nat
deriving DecidableEq

/-- The pty allocation block of main (reptyr.c lines 240-247): skipped
entirely when stealing; otherwise get_pt, unlockpt, grantpt, dying on any
failure.  Returns the events and the master descriptor when it succeeds. -/
def allocPhase (env : MainEnv) (o : MOpts) : List Ev × Option Nat :=
  if o.do_steal then ([], some env.ptyUninit)
  else if env.getPtOk = false then
    ([Ev.dieEv "Unable to allocate a new pseudo-terminal"], none)
  else if env.unlockOk = false then
    ([Ev.allocPty, Ev.dieEv "Unable to unlockpt"], none)
  else if env.grantOk = false then
    ([Ev.allocPty, Ev.dieEv "Unable to grantpt"], none)
  else ([Ev.allocPty], some env.pty)

/-- How the pre-relay part of main ended: an exit with a code, or control
reaching the relay phase (setup_raw / do_proxy / restore) with the given
master descriptor. -/
inductive CtlOutcome where
  | exitCode (code : Nat)
  | relay (pty : Nat)
deriving DecidableEq

/-- The attach branch of main (reptyr.c lines 249-273): validate the pid
(dying on a bad one), then steal_pty or attach_child; on a backend error
print a message, run check_ptrace_scope when the error is EPERM, and exit 1;
on success proceed to the relay with the (possibly replaced) descriptor. -/
def attachPhase (args : List String) (env : MainEnv) (o : MOpts)
    (optind : Nat) (pty : Nat) : List Ev × CtlOutcome :=
  match parsePid (args.getD optind "") with
  | PidCheck.badRange =>
      ([Ev.dieEv "Invalid pid: out of range"], CtlOutcome.exitCode 1)
  | PidCheck.badTrailing =>
      ([Ev.dieEv "Invalid pid: must be integer"], CtlOutcome.exitCode 1)
  | PidCheck.badValue =>
      ([Ev.dieEv "Invalid pid: value out of range"], CtlOutcome.exitCode 1)
  | PidCheck.ok pid =>
      if o.do_steal then
        if env.stealErr = 0 then
          ([Ev.stealCall pid], CtlOutcome.relay env.stolenPty)
        else
          ([Ev.stealCall pid, Ev.logErr "Unable to attach to pid"] ++
             (if env.stealErr = EPERM then [Ev.ptraceScopeCheck] else []),
           CtlOutcome.exitCode 1)
      else
        if env.attachErr = 0 then
          ([Ev.attachCall pid env.ptsName o.force_stdio], CtlOutcome.relay pty)
        else
          ([Ev.attachCall pid env.ptsName o.force_stdio,
            Ev.logErr "Unable to attach to pid"] ++
             (if env.attachErr = EPERM then [Ev.ptraceScopeCheck] else []),
           CtlOutcome.exitCode 1)

/-- The create branch of main (reptyr.c lines 274-297): print the slave
path; when argc > 2, fork a child that sets REPTYR_PTY to the slave path
(redirecting its stdio into the slave under -L) and execs argv[2..]; the
parent does not wait and falls through to the relay phase. -/
def createPhase (args : List String) (env : MainEnv) (o : MOpts)
    (pty : Nat) : List Ev × CtlOutcome :=
  ([Ev.printSlavePath env.ptsName] ++
     (if 2 < args.length then
        [Ev.spawnChild (args.drop 2) env.ptsName o.unattached_script_redirection]
      else []),
   CtlOutcome.relay pty)

/-- main after the getopt loop (reptyr.c lines 234-297): the missing-pid
check, then pty allocation, then the attach or create branch. -/
def mainAfterOpts (args : List String) (env : MainEnv) (o : MOpts)
    (optind : Nat) : List Ev × CtlOutcome :=
  if o.do_attach = true ∧ args.length ≤ optind then
    ([Ev.logErr "No pid specified to attach", Ev.usageShown],
     CtlOutcome.exitCode 1)
  else
    match allocPhase env o with
    | (ev, none) => (ev, CtlOutcome.exitCode 1)
    | (ev, some pty) =>
        if o.do_attach = true then
          match attachPhase args env o optind pty with
          | (ev2, out) => (ev ++ ev2, out)
        else
          match createPhase args env o pty with
          | (ev2, out) => (ev ++ ev2, out)

/-- The pre-relay control flow of main (reptyr.c lines 191-297): the getopt
loop over argv starting at index 1, then mainAfterOpts. -/
def mainCtl (args : List String) (env : MainEnv) : List Ev × CtlOutcome :=
  match getoptLoop (args.drop 1) 1 initOpts with
  | OptOutcome.earlyExit ev c => (ev, CtlOutcome.exitCode c)
  | OptOutcome.proceed o optind => mainAfterOpts args env o optind

/-- A concrete environment in which every external call succeeds. -/
def env0 : MainEnv :=
  ⟨true, true, true, 7, 3, "/dev/pts/7", 0, 0, 9⟩

/-- An iteration with only the local side readable and a zero-byte (EOF)
local read. -/
def iterLocalZero : IterIn :=
  ⟨none, true, SelRes.ready true false, false, ReadRes.data [], [],
   ReadRes.err, []⟩

/-- An iteration with only the local side readable and a failed local read. -/
def iterLocalNeg : IterIn :=
  ⟨none, true, SelRes.ready true false, false, ReadRes.err, [],
   ReadRes.err, []⟩

/-- An iteration in which pselect fails with EINTR. -/
def iterEintr : IterIn :=
  ⟨none, true, SelRes.err EINTR, false, ReadRes.err, [], ReadRes.err, []⟩

/-- An iteration in which pselect fails with a non-EINTR error. -/
def iterSelFail : IterIn :=
  ⟨none, true, SelRes.err 5, false, ReadRes.err, [], ReadRes.err, []⟩

/-- A concrete prior value for the saved_termios variable. -/
def t0 : Termios :=
  ⟨0, false⟩

/-- A concrete relay-phase environment: successful setup, one loop iteration
ending in a pselect failure, one EINTR then success on restore. -/
def re0 : RelayEnv :=
  ⟨some t0, true, ⟨true, none, true⟩, [iterSelFail],
   [RestoreResult.err EINTR, RestoreResult.ok]⟩

/-- A relay-phase environment whose tcgetattr fails in setup_raw. -/
def re1 : RelayEnv :=
  ⟨none, true, ⟨true, none, true⟩, [iterSelFail], [RestoreResult.ok]⟩

/- ------------------------------------------------------------------ -/
/- Helper lemmas shared by the claim theorems.                         -/
/- ------------------------------------------------------------------ -/

/-- The flag and exit components of one loop iteration: the flag afterwards
is exactly whether SIGWINCH was delivered during pselect, and the iteration
returns exactly under exitCause. -/
theorem proxyStep_snd (pty : Nat) (w : Bool) (i : IterIn) :
    (proxyStep pty w i).2 = (i.winchDelivered, exitCause i) := by
  obtain ⟨ws, so, sel, wd, lr, lw, pr, pw⟩ := i
  cases sel with
  | err e =>
      by_cases he : e = EINTR <;> simp [proxyStep, exitCause, he]
  | ready l p =>
      cases l <;> cases p <;> cases lr <;> cases pr <;>
        (try (rename_i bs; cases bs)) <;>
        simp [proxyStep, exitCause, readNeg, readLe0]

/-- An iteration entered with the flag set is the size propagation followed
exactly by the iteration entered with the flag clear. -/
theorem proxyStep_top (pty : Nat) (i : IterIn) :
    (proxyStep pty true i).1 =
      resize_pty pty i.winsz i.setOk ++ (proxyStep pty false i).1 := by
  obtain ⟨ws, so, sel, wd, lr, lw, pr, pw⟩ := i
  cases sel with
  | err e => by_cases he : e = EINTR <;> simp [proxyStep, he]
  | ready l p =>
      cases l <;> cases p <;> cases lr <;> cases pr <;>
        (try (rename_i bs; cases bs)) <;>
        simp [proxyStep]

/-- An iteration entered with the flag clear performs no window resize. -/
theorem proxyStep_noResize (pty : Nat) (i : IterIn) :
    ((proxyStep pty false i).1.all fun e => ! isSetWinsize e) = true := by
  obtain ⟨ws, so, sel, wd, lr, lw, pr, pw⟩ := i
  cases sel with
  | err e =>
      by_cases he : e = EINTR <;> simp [proxyStep, he, isSetWinsize, wevent]
  | ready l p =>
      cases l <;> cases p <;> cases lr <;> cases pr <;>
        (try (rename_i bs; cases bs)) <;>
        simp [proxyStep, isSetWinsize, wevent]

/-- On a restore trace of EINTR failures followed by a success, the restore
loop returns exit code 0 and applied the saved snapshot. -/
theorem restore_ok_of_eventually (t : Termios) (rs : List RestoreResult)
    (h : restoreEventuallyOk rs = true) :
    ∃ ev, restore_termios t rs = some (ev, 0) ∧ Ev.tcsetattrCall 0 t ∈ ev := by
  induction rs with
  | nil => simp [restoreEventuallyOk] at h
  | cons r rest ih =>
      cases r with
      | ok => exact ⟨[Ev.tcsetattrCall 0 t], rfl, by simp⟩
      | err e =>
          simp [restoreEventuallyOk] at h
          obtain ⟨he, hrest⟩ := h
          obtain ⟨ev, heq, hmem⟩ := ih hrest
          subst he
          refine ⟨Ev.tcsetattrCall 0 t :: ev, ?_, by simp [hmem]⟩
          simp [restore_termios, heq]

/-- A successful writeall accounted for every byte of the buffer. -/
theorem writeall_complete (trace : List WriteRes) :
    ∀ count w : Int, 0 ≤ count → validFor count trace = true →
      writeall count trace = some (0, w) → w = count := by
  induction trace with
  | nil =>
      intro count w h0 _ h
      by_cases hc : count ≤ 0
      · simp only [writeall, if_pos hc, Option.some.injEq, Prod.mk.injEq] at h
        omega
      · simp [writeall, hc] at h
  | cons r rest ih =>
      intro count w h0 hv h
      by_cases hc : count ≤ 0
      · simp only [writeall, if_pos hc, Option.some.injEq, Prod.mk.injEq] at h
        omega
      · cases r with
        | err e =>
            by_cases he : e = EINTR
            · subst he
              simp [writeall, hc] at h
              simp [validFor, hc] at hv
              exact ih count w h0 hv h
            · simp [writeall, hc, he] at h
        | ok n =>
            simp only [writeall, if_neg hc] at h
            simp only [validFor, if_neg hc, Bool.and_eq_true,
              decide_eq_true_eq] at hv
            obtain ⟨hn, hv2⟩ := hv
            cases hw : writeall (count - (n : Int)) rest with
            | none => rw [hw] at h; simp at h
            | some pr =>
                obtain ⟨rv, wr⟩ := pr
                rw [hw] at h
                simp only [Option.some.injEq, Prod.mk.injEq] at h
                obtain ⟨hrv, hwr⟩ := h
                have hwreq := ih (count - (n : Int)) wr (by omega) hv2
                  (by rw [hw, hrv])
                omega

/-- A lone non-option operand passes through the getopt loop untouched. -/
theorem getopt_operand (s : String) (h : isDashOpt s = false) :
    getoptLoop [s] 1 initOpts = OptOutcome.proceed initOpts 1 := by
  rcases hsl : s.data with _ | ⟨d, _ | ⟨c, rest⟩⟩
  · simp [getoptLoop, hsl]
  · simp [getoptLoop, hsl]
  · have hd : ¬ d = '-' := by
      intro hdd
      simp [isDashOpt, String.toList, hsl, hdd] at h
    cases rest with
    | nil => simp [getoptLoop, hsl, hd]
    | cons c2 rest2 => simp [getoptLoop, hsl, hd]

/-- mainCtl on a program name and one non-option operand reduces to
mainAfterOpts with the initial flags and optind 1. -/
theorem mainCtl_operand (s : String) (env : MainEnv)
    (h : isDashOpt s = false) :
    mainCtl ["reptyr", s] env = mainAfterOpts ["reptyr", s] env initOpts 1 := by
  simp [mainCtl, getopt_operand s h]

/- ------------------------------------------------------------------ -/
/- Claim theorems.                                                     -/
/- ------------------------------------------------------------------ -/

/-- C1: for every way do_proxy returns (any loop exit cause or the setup
failure), main afterwards runs the restore loop on the saved snapshot and,
once a tcsetattr succeeds, exits with status 0; the restore retries while
tcsetattr fails with EINTR and dies (exit 1) on any other failure. -/
theorem relay_teardown_exit0 (pty : Nat) (save0 t : Termios) (re : RelayEnv)
    (r : ProxyResult) (e : Nat) (rs2 : List RestoreResult) :
    ((setup_raw save0 re.tcget re.tcsetOk).2.2 = false →
     (do_proxy pty re.su re.iters).2 = some r →
     restoreEventuallyOk re.rs = true →
     ∃ ev, relayPhase pty save0 re = some (ev, 0) ∧
       Ev.tcsetattrCall 0 (setup_raw save0 re.tcget re.tcsetOk).1 ∈ ev) ∧
    (restore_termios t (RestoreResult.err EINTR :: rs2) =
      (restore_termios t rs2).map fun pr => (Ev.tcsetattrCall 0 t :: pr.1, pr.2)) ∧
    (e ≠ EINTR →
      restore_termios t (RestoreResult.err e :: rs2) =
        some ([Ev.tcsetattrCall 0 t, Ev.dieEv "Unable to tcsetattr"], 1)) := by
  refine ⟨?_, ?_, ?_⟩
  · intro hdied hterm hro
    obtain ⟨ev3, heq, hmem⟩ :=
      restore_ok_of_eventually (setup_raw save0 re.tcget re.tcsetOk).1 re.rs hro
    cases hp : do_proxy pty re.su re.iters with
    | mk ev2 res =>
      cases hs : setup_raw save0 re.tcget re.tcsetOk with
      | mk snap p2 =>
        obtain ⟨ev1, died⟩ := p2
        rw [hs] at hdied heq hmem
        simp only at hdied heq hmem
        rw [hp] at hterm
        simp only at hterm
        subst hterm
        refine ⟨ev1 ++ ev2 ++ ev3, ?_, by simp [hmem]⟩
        subst hdied
        simp [relayPhase, hs, hp, heq]
  · cases h2 : restore_termios t rs2 with
    | none => simp [restore_termios, h2]
    | some pr => simp [restore_termios, h2]
  · intro he
    simp [restore_termios, he]

/-- Witness for relay_teardown_exit0 at a concrete run: one loop iteration
ending in a pselect failure, one EINTR on restore, then success. -/
theorem relay_teardown_exit0_witness :
    ∃ ev, relayPhase 7 t0 re0 = some (ev, 0) ∧
      Ev.tcsetattrCall 0 (setup_raw t0 re0.tcget re0.tcsetOk).1 ∈ ev :=
  (relay_teardown_exit0 7 t0 t0 re0
      (ProxyResult.loopExit (ExitReason.selectError 5)) 0 []).1
    (by decide) (by decide) (by decide)

/-- C2 counterexample: with only the local side readable, a zero-byte (EOF)
local read does not end the relay loop while a negative one does, so the
two non-positive results are not treated identically as the claim states. -/
theorem local_zero_read_cex :
    (proxyStep 5 false iterLocalZero).2.2 = none ∧
    (proxyStep 5 false iterLocalNeg).2.2 = some ExitReason.localEnd := by
  decide

/-- C2 amended: on the local side only a negative read result ends the
session; any read that returns data or EOF (zero bytes) leaves the loop
running when the pty side is not readable. -/
theorem local_read_exit_amended (pty : Nat) (w : Bool) (i : IterIn) (p : Bool)
    (bs : List Nat) :
    (i.sel = SelRes.ready true p → i.localRead = ReadRes.err →
      (proxyStep pty w i).2.2 = some ExitReason.localEnd) ∧
    (i.sel = SelRes.ready true false → i.localRead = ReadRes.data bs →
      (proxyStep pty w i).2.2 = none) := by
  constructor
  · intro hs hr
    rw [proxyStep_snd]
    simp [exitCause, hs, hr, readNeg]
  · intro hs hr
    rw [proxyStep_snd]
    simp [exitCause, hs, hr, readNeg]

/-- Witness for local_read_exit_amended at concrete iterations. -/
theorem local_read_exit_amended_witness :
    (proxyStep 5 false iterLocalNeg).2.2 = some ExitReason.localEnd ∧
    (proxyStep 5 true iterLocalZero).2.2 = none :=
  ⟨(local_read_exit_amended 5 false iterLocalNeg false []).1 rfl rfl,
   (local_read_exit_amended 5 true iterLocalZero false []).2 rfl rfl⟩

/-- C3 counterexample: on the malformed pid string abc the program does die
with exit status 1, but the pseudo-terminal had already been allocated when
the validation ran, contrary to the claim that rejection happens before any
resource is allocated. -/
theorem pid_reject_after_alloc_cex :
    (mainCtl ["reptyr", "abc"] env0).2 = CtlOutcome.exitCode 1 ∧
    Ev.allocPty ∈ (mainCtl ["reptyr", "abc"] env0).1 := by
  decide

/-- C3 amended: every pid operand that fails validation (non-numeric
content, trailing characters, out of range, or below 1) makes the program
die with exit status 1 — but in the default attach mode the pseudo-terminal
has already been allocated before the validation runs. -/
theorem pid_reject_exits1_after_alloc (s : String) (env : MainEnv)
    (hd : isDashOpt s = false) (hacc : pidAccepted s = false)
    (h1 : env.getPtOk = true) (h2 : env.unlockOk = true)
    (h3 : env.grantOk = true) :
    (mainCtl ["reptyr", s] env).2 = CtlOutcome.exitCode 1 ∧
    Ev.allocPty ∈ (mainCtl ["reptyr", s] env).1 ∧
    ∃ m, Ev.dieEv m ∈ (mainCtl ["reptyr", s] env).1 := by
  rw [mainCtl_operand s env hd]
  cases hp : parsePid s with
  | ok pid => simp [pidAccepted, hp] at hacc
  | badRange =>
      simp [mainAfterOpts, allocPhase, attachPhase, initOpts, h1, h2, h3, hp]
  | badTrailing =>
      simp [mainAfterOpts, allocPhase, attachPhase, initOpts, h1, h2, h3, hp]
  | badValue =>
      simp [mainAfterOpts, allocPhase, attachPhase, initOpts, h1, h2, h3, hp]

/-- Witness for pid_reject_exits1_after_alloc on the pid string 12x. -/
theorem pid_reject_exits1_after_alloc_witness :
    (mainCtl ["reptyr", "12x"] env0).2 = CtlOutcome.exitCode 1 ∧
    Ev.allocPty ∈ (mainCtl ["reptyr", "12x"] env0).1 ∧
    ∃ m, Ev.dieEv m ∈ (mainCtl ["reptyr", "12x"] env0).1 :=
  pid_reject_exits1_after_alloc "12x" env0 (by decide) (by decide)
    rfl rfl rfl

/-- C4 counterexample: with -l and no trailing command the program prints
the slave path but does not exit 0 there; it proceeds into the relay phase
(and likewise with a trailing command), contrary to the claim. -/
theorem create_no_relay_cex :
    (mainCtl ["reptyr", "-l"] env0).2 = CtlOutcome.relay 7 ∧
    (mainCtl ["reptyr", "-l"] env0).2 ≠ CtlOutcome.exitCode 0 ∧
    Ev.printSlavePath "/dev/pts/7" ∈ (mainCtl ["reptyr", "-l"] env0).1 ∧
    (mainCtl ["reptyr", "-l", "cmd"] env0).2 = CtlOutcome.relay 7 := by
  decide

/-- C4 amended: in create mode (-l), with or without a trailing command, the
program prints the slave path and then always falls through into the relay
phase (setup_raw, do_proxy, restore) with the allocated master. -/
theorem create_mode_enters_relay (rest : List String) (env : MainEnv)
    (h1 : env.getPtOk = true) (h2 : env.unlockOk = true)
    (h3 : env.grantOk = true) :
    (mainCtl ("reptyr" :: "-l" :: rest) env).2 = CtlOutcome.relay env.pty ∧
    Ev.printSlavePath env.ptsName ∈ (mainCtl ("reptyr" :: "-l" :: rest) env).1 := by
  have hopt : getoptLoop ("-l" :: rest) 1 initOpts =
      OptOutcome.proceed
        { initOpts with do_attach := false } 2 := by
    simp [getoptLoop]
  simp only [mainCtl, List.drop, hopt]
  by_cases hl : 2 < ("reptyr" :: "-l" :: rest : List String).length <;>
    simp [mainAfterOpts, allocPhase, createPhase, initOpts, h1, h2, h3, hl]

/-- Witness for create_mode_enters_relay with no trailing command. -/
theorem create_mode_enters_relay_witness :
    (mainCtl ["reptyr", "-l"] env0).2 = CtlOutcome.relay env0.pty ∧
    Ev.printSlavePath env0.ptsName ∈ (mainCtl ["reptyr", "-l"] env0).1 :=
  create_mode_enters_relay [] env0 rfl rfl rfl

/-- C5 counterexample: when the size query on the controlling terminal
fails, the size actually applied to the target is 30 rows by 80 columns
with pixel dimensions 640 by 480 — not the zero pixel dimensions the claim
states. -/
theorem fallback_pixel_cex :
    resize_pty 5 none true = [Ev.setWinsize 5 (Winsize.mk 30 80 640 480)] ∧
    (Winsize.mk 30 80 640 480).ws_xpixel = 640 ∧
    (Winsize.mk 30 80 640 480).ws_ypixel = 480 ∧
    Winsize.mk 30 80 640 480 ≠ Winsize.mk 30 80 0 0 := by
  decide

/-- C5 amended: whenever the size query fails, resize_pty applies to the
target exactly the fixed fallback 30 rows by 80 columns with pixel size
640 by 480 — at the startup call of do_proxy and at every flag-driven
resize inside the loop — and a failure to apply it is logged, never
fatal. -/
theorem fallback_size_amended (pty : Nat) (setOk : Bool) (i : IterIn)
    (iters : List IterIn) :
    resize_pty pty none setOk =
      Ev.setWinsize pty defaultsize ::
        (if setOk = true then [] else [Ev.logErr "Cannot set terminal size"]) ∧
    defaultsize = Winsize.mk 30 80 640 480 ∧
    ((resize_pty pty none setOk).all fun e => ! isDie e) = true ∧
    Ev.setWinsize pty defaultsize ∈
      (do_proxy pty ⟨true, none, setOk⟩ iters).1 ∧
    Ev.setWinsize pty defaultsize ∈
      (proxyStep pty true { i with winsz := none }).1 := by
  refine ⟨?_, rfl, ?_, ?_, ?_⟩
  · cases setOk <;> simp [resize_pty]
  · cases setOk <;> simp [resize_pty, isDie]
  · cases hr : runLoop pty false iters with
    | mk ev p2 =>
      cases setOk <;> simp [do_proxy, hr, resize_pty]
  · rw [proxyStep_top]
    by_cases hso : i.setOk = true <;> simp [resize_pty, hso]

/-- C6: writeall retries on an interrupted write, returns the negative
(hence non-zero) write return value on any other error, and returns 0 only
once every byte of the buffer has been accepted by a write. -/
theorem writeall_contract (count : Int) (e : Nat) (rest trace : List WriteRes)
    (w : Int) :
    (0 < count →
      writeall count (WriteRes.err EINTR :: rest) = writeall count rest) ∧
    (0 < count → e ≠ EINTR →
      writeall count (WriteRes.err e :: rest) = some (-1, 0)) ∧
    (0 ≤ count → validFor count trace = true →
      writeall count trace = some (0, w) → w = count) := by
  refine ⟨?_, ?_, ?_⟩
  · intro hc
    simp [writeall, show ¬ count ≤ 0 by omega]
  · intro hc he
    simp [writeall, show ¬ count ≤ 0 by omega, he]
  · intro h0 hv h
    exact writeall_complete trace count w h0 hv h

/-- Witness for writeall_contract at concrete traces. -/
theorem writeall_contract_witness :
    writeall 3 [WriteRes.err EINTR, WriteRes.ok 3] = writeall 3 [WriteRes.ok 3] ∧
    writeall 2 [WriteRes.err 5] = some (-1, 0) ∧ (3 : Int) = 3 :=
  ⟨(writeall_contract 3 0 [WriteRes.ok 3] [] 0).1 (by decide),
   (writeall_contract 2 5 [] [] 0).2.1 (by decide) (by decide),
   (writeall_contract 3 0 []
       [WriteRes.ok 2, WriteRes.err EINTR, WriteRes.ok 1] 3).2.2
     (by decide) (by decide) (by decide)⟩

/-- C7: one relay-loop iteration returns exactly under exitCause — a
pselect failure other than EINTR, a negative local read, or, after the
local side, a non-positive pty read; the writeall outcomes never influence
whether it returns; and an EINTR from pselect always continues the loop. -/
theorem proxy_exit_causes (pty : Nat) (w : Bool) (i : IterIn)
    (t1 t2 : List WriteRes) :
    (proxyStep pty w i).2.2 = exitCause i ∧
    (proxyStep pty w { i with localWrite := t1, ptyWrite := t2 }).2.2 =
      (proxyStep pty w i).2.2 ∧
    (i.sel = SelRes.err EINTR → (proxyStep pty w i).2.2 = none) := by
  refine ⟨?_, ?_, ?_⟩
  · rw [proxyStep_snd]
  · rw [proxyStep_snd, proxyStep_snd]
    rfl
  · intro hs
    rw [proxyStep_snd]
    simp [exitCause, hs]

/-- Witness for proxy_exit_causes: an interrupted pselect continues. -/
theorem proxy_exit_causes_witness :
    (proxyStep 5 false iterEintr).2.2 = none :=
  (proxy_exit_causes 5 false iterEintr [] []).2.2 rfl

/-- C8: the SIGWINCH handler only sets the flag and performs no other
action, and the relay loop consumes the flag only at the top of an
iteration: an iteration entered with the flag set is exactly the size
propagation followed by the flag-clear iteration, with identical flag and
exit behaviour, and an iteration entered with the flag clear performs no
window resize at all. -/
theorem winch_flag_roles (pty : Nat) (w : Bool) (i : IterIn) :
    do_winch w = (true, []) ∧
    (proxyStep pty true i).1 =
      resize_pty pty i.winsz i.setOk ++ (proxyStep pty false i).1 ∧
    (proxyStep pty true i).2 = (proxyStep pty false i).2 ∧
    ((proxyStep pty false i).1.all fun e => ! isSetWinsize e) = true := by
  refine ⟨rfl, proxyStep_top pty i, ?_, proxyStep_noResize pty i⟩
  rw [proxyStep_snd, proxyStep_snd]

/-- C9: at argv = [reptyr, -V, -l] no command follows -l, yet the code
(whose spawn condition is argc greater than 2 and whose command is argv
from index 2 on) forks a child that execs the literal string -l with
REPTYR_PTY set to the slave path, contradicting the usage text that only
arguments after -l are executed. -/
theorem spawn_without_command_bug :
    Ev.spawnChild ["-l"] "/dev/pts/7" false ∈
      (mainCtl ["reptyr", "-V", "-l"] env0).1 ∧
    (mainCtl ["reptyr", "-V", "-l"] env0).2 = CtlOutcome.relay 7 := by
  decide

/-- C10: when tcgetattr fails in setup_raw the save variable keeps whatever
value it already held, no raw-mode tcsetattr is attempted, the session
continues (no die), and the unconditional teardown then applies exactly
that unmodified prior value to the terminal. -/
theorem setup_read_failure_restore (pty : Nat) (save0 : Termios)
    (re : RelayEnv) (r : ProxyResult) :
    (setup_raw save0 none re.tcsetOk =
      (save0, [Ev.logErr "Unable to read terminal attributes"], false)) ∧
    (re.tcget = none →
     (do_proxy pty re.su re.iters).2 = some r →
     restoreEventuallyOk re.rs = true →
     ∃ ev, relayPhase pty save0 re = some (ev, 0) ∧
       Ev.tcsetattrCall 0 save0 ∈ ev) := by
  constructor
  · rfl
  · intro hget hterm hro
    obtain ⟨ev3, heq, hmem⟩ := restore_ok_of_eventually save0 re.rs hro
    cases hp : do_proxy pty re.su re.iters with
    | mk ev2 res =>
      rw [hp] at hterm
      simp only at hterm
      subst hterm
      refine ⟨[Ev.logErr "Unable to read terminal attributes"] ++ ev2 ++ ev3,
        ?_, by simp [hmem]⟩
      have hs : setup_raw save0 re.tcget re.tcsetOk =
          (save0, [Ev.logErr "Unable to read terminal attributes"], false) := by
        rw [hget]
        rfl
      simp [relayPhase, hs, hp, heq]

/-- Witness for setup_read_failure_restore at a concrete run whose
tcgetattr fails. -/
theorem setup_read_failure_restore_witness :
    ∃ ev, relayPhase 7 t0 re1 = some (ev, 0) ∧
      Ev.tcsetattrCall 0 t0 ∈ ev :=
  (setup_read_failure_restore 7 t0 re1
      (ProxyResult.loopExit (ExitReason.selectError 5))).2
    rfl (by decide) (by decide)

end Reptyr
